import Mathlib

/-!
# MouseWheelRadioChanger (GTA III / VC): verification development

Shallow embedding of `GInputAPI.h` (the GInput loader and its safe-mode dummy
interface) and of `dllmain.cpp` (the version switch and the poll loop of
`Thread`), followed by the theorems about them.

Conventions of the embedding.

* Interface pointers (`IGInputPad*`) are values of `IGInputPadPtr`: the null
  pointer, the address of the static `DummyClass` object of
  `_GInput_SafeMode`, or the address of an object supplied by a loaded module.
* Raw addresses (`char *`, `HMODULE`) are natural numbers, `0` being `NULL`.
* Every externally visible step (library load, export lookup, memory read,
  `Sleep`, `SendEvent`) is recorded, in program order, in a list of `Action`s.
* The host process memory is an oracle `mem : Nat → Nat → Fin 256`: the byte
  found at an address by the `k`-th byte read of the thread, so memory may
  change between any two reads.
* `while (true)` is unrolled a given number of iterations (`fuel`); a result
  `ret = none` means the thread is still inside the loop.
-/

namespace MouseWheelRadioChanger

/-! ## GInputAPI.h -/

/-- Event codes of `enum eGInputEvent`; an enumerator is an integer. -/
abbrev eGInputEvent := Int

/-- Enumerator `GINPUT_NO_EVENT = -1`. -/
def GINPUT_NO_EVENT : eGInputEvent := -1

/-- Enumerator following `GINPUT_NO_EVENT`, hence one more than it. -/
def GINPUT_EVENT_CHANGE_RADIO_STATION : eGInputEvent := GINPUT_NO_EVENT + 1

/-- Enumerator following `GINPUT_EVENT_CHANGE_RADIO_STATION`. -/
def NUM_GINPUT_EVENTS : eGInputEvent := GINPUT_EVENT_CHANGE_RADIO_STATION + 1

/-- Values of type `IGInputPad*`. -/
inductive IGInputPadPtr where
  | null : IGInputPadPtr
  | dummy : IGInputPadPtr
  | ext (obj : Nat) : IGInputPadPtr
  deriving DecidableEq, Repr

/-- Externally visible steps of the program. -/
inductive Action where
  | LoadLibraryA (path : String) : Action
  | GetProcAddress (hModule : Nat) (ordinal : Nat) : Action
  | CallExport (hModule : Nat) : Action
  | ReadVersion (addr : Nat) : Action
  | ReadChar (addr : Nat) : Action
  | Sleep (ms : Nat) : Action
  | SendEvent (iface : IGInputPadPtr) (eEvent : eGInputEvent) (dwParam : Nat) : Action
  deriving DecidableEq, Repr

/-- Whether a step is a `SendEvent` call. -/
def Action.isSendEvent : Action → Bool
  | Action.SendEvent _ _ _ => true
  | _ => false

/-- Whether a step is a byte read of host memory. -/
def Action.isReadChar : Action → Bool
  | Action.ReadChar _ => true
  | _ => false

/-- Whether a step is one of the loader: a library load, an export lookup or
the call of the export. -/
def Action.isLoaderStep : Action → Bool
  | Action.LoadLibraryA _ => true
  | Action.GetProcAddress _ _ => true
  | Action.CallExport _ => true
  | _ => false

/-- Whether a step is a `Sleep`. -/
def Action.isSleep : Action → Bool
  | Action.Sleep _ => true
  | _ => false

/-- Function `_GInput_SafeMode`: the address of the static `DummyClass`. -/
def _GInput_SafeMode : IGInputPadPtr := IGInputPadPtr.dummy

namespace CDummyPad

/-- Method `CDummyPad::IsPadConnected`. -/
def IsPadConnected : Bool := false

/-- Method `CDummyPad::HasPadInHands`. -/
def HasPadInHands : Bool := false

/-- Method `CDummyPad::GetVersion`. -/
def GetVersion : Int := -1

/-- Method `CDummyPad::SendEvent`: both parameters unreferenced, returns `NULL`. -/
def SendEvent (_eEvent : eGInputEvent) (_dwParam : Nat) : Nat := 0

end CDummyPad

/-- Behaviour of the interface objects a loaded GInput module hands out
(code outside this repository), indexed by object. -/
structure ExternalPads where
  IsPadConnected : Nat → Bool
  HasPadInHands : Nat → Bool
  GetVersion : Nat → Int
  SendEvent : Nat → eGInputEvent → Nat → Nat

namespace IGInputPad

/-- Virtual call `p->IsPadConnected()`; `none` for a call through `NULL`. -/
def IsPadConnected (x : ExternalPads) : IGInputPadPtr → Option Bool
  | IGInputPadPtr.null => none
  | IGInputPadPtr.dummy => some CDummyPad.IsPadConnected
  | IGInputPadPtr.ext o => some (x.IsPadConnected o)

/-- Virtual call `p->HasPadInHands()`; `none` for a call through `NULL`. -/
def HasPadInHands (x : ExternalPads) : IGInputPadPtr → Option Bool
  | IGInputPadPtr.null => none
  | IGInputPadPtr.dummy => some CDummyPad.HasPadInHands
  | IGInputPadPtr.ext o => some (x.HasPadInHands o)

/-- Virtual call `p->GetVersion()`; `none` for a call through `NULL`. -/
def GetVersion (x : ExternalPads) : IGInputPadPtr → Option Int
  | IGInputPadPtr.null => none
  | IGInputPadPtr.dummy => some CDummyPad.GetVersion
  | IGInputPadPtr.ext o => some (x.GetVersion o)

/-- Virtual call `p->SendEvent(eEvent, dwParam)`; `none` for a call through `NULL`. -/
def SendEvent (x : ExternalPads) (p : IGInputPadPtr) (eEvent : eGInputEvent)
    (dwParam : Nat) : Option Nat :=
  match p with
  | IGInputPadPtr.null => none
  | IGInputPadPtr.dummy => some (CDummyPad.SendEvent eEvent dwParam)
  | IGInputPadPtr.ext o => some (x.SendEvent o eEvent dwParam)

end IGInputPad

/-- What the operating system answers to the loader: the handle returned by
`LoadLibraryA` for a path (`0` is `NULL`), and for `GetProcAddress` on a handle
and an ordinal either `none` (`NULL`) or the pointer the exported function
returns when called. -/
structure Env where
  LoadLibraryA : String → Nat
  GetProcAddress : Nat → Nat → Option IGInputPadPtr

/-- The static variables of `GInputAPI.h`: the file-level `hGInputHandle` and
the two function-level statics of `GInput_Load`. -/
structure LoaderState where
  hGInputHandle : Nat
  pCopiedPtr : IGInputPadPtr
  bLoadingResult : Bool
  deriving DecidableEq, Repr

/-- Static initialisers: `NULL`, `NULL`, `false`. -/
def LoaderState.init : LoaderState :=
  { hGInputHandle := 0, pCopiedPtr := IGInputPadPtr.null, bLoadingResult := false }

/-- Outcome of one call of `GInput_Load`: the returned `bool`, the pointer
stored through `pInterfacePtr`, the statics afterwards and the steps taken. -/
structure LoadResult where
  ret : Bool
  written : IGInputPadPtr
  state : LoaderState
  trace : List Action
  deriving DecidableEq, Repr

/-- Lines 150-174 of `GInput_Load`: with `hGInputHandle = h` loaded, look up
export ordinal 1, call it, and fall back to safe mode when either fails. -/
def GInput_Load.getInterface (e : Env) (h : Nat) (tr : List Action) : LoadResult :=
  match e.GetProcAddress h 1 with
  | none =>
    { ret := false
      written := _GInput_SafeMode
      state := { hGInputHandle := h, pCopiedPtr := _GInput_SafeMode, bLoadingResult := false }
      trace := tr ++ [Action.GetProcAddress h 1] }
  | some r =>
    if r ≠ IGInputPadPtr.null then
      { ret := true
        written := r
        state := { hGInputHandle := h, pCopiedPtr := r, bLoadingResult := true }
        trace := tr ++ [Action.GetProcAddress h 1, Action.CallExport h] }
    else
      { ret := false
        written := _GInput_SafeMode
        state := { hGInputHandle := h, pCopiedPtr := _GInput_SafeMode, bLoadingResult := false }
        trace := tr ++ [Action.GetProcAddress h 1, Action.CallExport h] }

/-- Function `GInput_Load`, compiled with `GINPUT_COMPILE_CROSSCOMPATIBLE_VERSION`
(defined on line 1 of `dllmain.cpp`). -/
def GInput_Load (e : Env) (s : LoaderState) : LoadResult :=
  if s.pCopiedPtr ≠ IGInputPadPtr.null then
    { ret := s.bLoadingResult, written := s.pCopiedPtr, state := s, trace := [] }
  else
    let h1 := e.LoadLibraryA "GInputIII.asi"
    let t1 := [Action.LoadLibraryA "GInputIII.asi"]
    if h1 ≠ 0 then GInput_Load.getInterface e h1 t1
    else
      let h2 := e.LoadLibraryA "mss\\GInputIII.asi"
      let t2 := t1 ++ [Action.LoadLibraryA "mss\\GInputIII.asi"]
      if h2 ≠ 0 then GInput_Load.getInterface e h2 t2
      else
        let h3 := e.LoadLibraryA "GInputVC.asi"
        let t3 := t2 ++ [Action.LoadLibraryA "GInputVC.asi"]
        if h3 ≠ 0 then GInput_Load.getInterface e h3 t3
        else
          let h4 := e.LoadLibraryA "mss\\GInputVC.asi"
          let t4 := t3 ++ [Action.LoadLibraryA "mss\\GInputVC.asi"]
          if h4 ≠ 0 then GInput_Load.getInterface e h4 t4
          else
            { ret := false
              written := _GInput_SafeMode
              state := { hGInputHandle := h4, pCopiedPtr := _GInput_SafeMode,
                         bLoadingResult := false }
              trace := t4 }

/-- Statics after the first `n` calls of `GInput_Load`, the `k`-th call
(counted from 1) being answered by environment `envs k`. -/
def loaderStateAfter (envs : Nat → Env) : Nat → LoaderState
  | 0 => LoaderState.init
  | n + 1 => (GInput_Load (envs (n + 1)) (loaderStateAfter envs n)).state

/-- Outcome of the `n`-th call of `GInput_Load` (counted from 1; for `n = 0`
this is a first call answered by `envs 0`). -/
def GInput_Load_nth (envs : Nat → Env) (n : Nat) : LoadResult :=
  GInput_Load (envs n) (loaderStateAfter envs (n - 1))

/-- The library paths in the order in which `GInput_Load` tries them. -/
def searchOrder : List String :=
  ["GInputIII.asi", "mss\\GInputIII.asi", "GInputVC.asi", "mss\\GInputVC.asi"]

/-- Specification side of the loader: the handle of the first path of the
search order that loads, if any. -/
def firstLoaded (e : Env) : Option Nat :=
  (searchOrder.map e.LoadLibraryA).find? (fun h => decide (h ≠ 0))

/-- Specification side of the loader: some path loads, the loaded module has
export ordinal 1, and that export returns the non-null interface `r`. -/
def LoadSucceedsWith (e : Env) (r : IGInputPadPtr) : Prop :=
  ∃ h, firstLoaded e = some h ∧ e.GetProcAddress h 1 = some r ∧ r ≠ IGInputPadPtr.null

/-- Invariant of the statics: a cached pointer with a cached `false` is the
safe-mode dummy. -/
def LoaderInv (s : LoaderState) : Prop :=
  s.pCopiedPtr ≠ IGInputPadPtr.null → s.bLoadingResult = false →
    s.pCopiedPtr = IGInputPadPtr.dummy

/-! ## dllmain.cpp -/

/-- Address read by the `gGameVersion` accessor: `*(unsigned int *)0x601048`. -/
def gGameVersionAddr : Nat := 0x601048

/-- Version key `GTA_3_1_0`. -/
def GTA_3_1_0 : Nat := 0x3A83126F

/-- Version key `GTA_3_1_1`. -/
def GTA_3_1_1 : Nat := 0x3F8CCCCD

/-- Version key `GTA_3_STEAM`. -/
def GTA_3_STEAM : Nat := 0x47BDA5

/-- Version key `GTA_VC_1_0`. -/
def GTA_VC_1_0 : Nat := 0x53FF1B8B

/-- Version key `GTA_VC_STEAM`. -/
def GTA_VC_STEAM : Nat := 0xF04F883

/-- Version key `GTA_VC_1_1`. -/
def GTA_VC_1_1 : Nat := 0x783EE8

/-- Placeholder `GTA_SA_1_0`, defined as `0x0` and used by no `case`. -/
def GTA_SA_1_0 : Nat := 0x0

/-- Placeholder `GTA_SA_1_1`, defined as `0x0` and used by no `case`. -/
def GTA_SA_1_1 : Nat := 0x0

/-- Placeholder `GTA_SA_steam`, defined as `0x0` and used by no `case`. -/
def GTA_SA_steam : Nat := 0x0

/-- The version keys that label a `case` of the switch, in source order. -/
def knownVersions : List Nat :=
  [GTA_3_1_0, GTA_3_1_1, GTA_3_STEAM, GTA_VC_1_0, GTA_VC_1_1, GTA_VC_STEAM]

/-- The global variables of `dllmain.cpp` together with the statics of the
included header. -/
structure Globals where
  gMouseWheelBinding : Nat
  gMouseWheelDownState : Nat
  gMouseWheelUpState : Nat
  myInterfacePtr : IGInputPadPtr
  loader : LoaderState
  deriving DecidableEq, Repr

/-- Globals at program start: objects of static storage are zero-initialised. -/
def Globals.init : Globals :=
  { gMouseWheelBinding := 0, gMouseWheelDownState := 0, gMouseWheelUpState := 0,
    myInterfacePtr := IGInputPadPtr.null, loader := LoaderState.init }

/-- The three addresses the switch assigns: binding, down-state, up-state. -/
def Globals.addressSet (g : Globals) : Nat × Nat × Nat :=
  (g.gMouseWheelBinding, g.gMouseWheelDownState, g.gMouseWheelUpState)

/-- Everything outside the program that `Thread` observes: the loader
environment, the value read from `gGameVersion`, and the memory oracle. -/
structure World where
  env : Env
  gGameVersion : Nat
  mem : Nat → Nat → Fin 256

/-- Value of a byte read through a `char *` (`char` is signed on the target). -/
def charValue (b : Fin 256) : Int :=
  if b.val < 128 then (b.val : Int) else (b.val : Int) - 256

/-- The statement `switch(gGameVersion)` of `Thread`; it has no `default`. -/
def Thread.switch (v : Nat) (g : Globals) : Globals :=
  if v = GTA_3_1_0 then
    { g with gMouseWheelBinding := 0x8F54BC, gMouseWheelDownState := 0x6F1E64,
             gMouseWheelUpState := 0x6F1E63 }
  else if v = GTA_3_1_1 then
    { g with gMouseWheelBinding := 0x8F5570, gMouseWheelDownState := 0x6F1E64,
             gMouseWheelUpState := 0x6F1E63 }
  else if v = GTA_3_STEAM then
    { g with gMouseWheelBinding := 0x9056B0, gMouseWheelDownState := 0x701FA4,
             gMouseWheelUpState := 0x701FA3 }
  else if v = GTA_VC_1_0 then
    { g with gMouseWheelBinding := 0x9B5B64, gMouseWheelDownState := 0x7DD864,
             gMouseWheelUpState := 0x7DD863 }
  else if v = GTA_VC_1_1 then
    { g with gMouseWheelBinding := 0x9B5B6C, gMouseWheelDownState := 0x7DD86C,
             gMouseWheelUpState := 0x7DD86B }
  else if v = GTA_VC_STEAM then
    { g with gMouseWheelBinding := 0x9B4B6C, gMouseWheelDownState := 0x7DC86C,
             gMouseWheelUpState := 0x7DC86B }
  else g

/-- One pass through the body of `while (true)` in `Thread`, the thread having
made `t` byte reads so far; returns the steps taken and the new read count. -/
def Thread.pollIteration (w : World) (g : Globals) (t : Nat) : List Action × Nat :=
  if charValue (w.mem t g.gMouseWheelBinding) = 4 then
    if charValue (w.mem (t + 1) g.gMouseWheelDownState) ≠ 0 then
      ([Action.Sleep 0, Action.ReadChar g.gMouseWheelBinding,
        Action.ReadChar g.gMouseWheelDownState,
        Action.SendEvent g.myInterfacePtr GINPUT_EVENT_CHANGE_RADIO_STATION 1,
        Action.Sleep 70], t + 2)
    else
      ([Action.Sleep 0, Action.ReadChar g.gMouseWheelBinding,
        Action.ReadChar g.gMouseWheelDownState], t + 2)
  else if charValue (w.mem (t + 1) g.gMouseWheelBinding) = 5 then
    if charValue (w.mem (t + 2) g.gMouseWheelUpState) ≠ 0 then
      ([Action.Sleep 0, Action.ReadChar g.gMouseWheelBinding,
        Action.ReadChar g.gMouseWheelBinding, Action.ReadChar g.gMouseWheelUpState,
        Action.SendEvent g.myInterfacePtr GINPUT_EVENT_CHANGE_RADIO_STATION 1,
        Action.Sleep 70], t + 3)
    else
      ([Action.Sleep 0, Action.ReadChar g.gMouseWheelBinding,
        Action.ReadChar g.gMouseWheelBinding, Action.ReadChar g.gMouseWheelUpState], t + 3)
  else
    ([Action.Sleep 0, Action.ReadChar g.gMouseWheelBinding,
      Action.ReadChar g.gMouseWheelBinding], t + 2)

/-- The first `fuel` iterations of `while (true)`, starting at read count `t`. -/
def Thread.pollLoop (w : World) (g : Globals) : Nat → Nat → List Action
  | 0, _ => []
  | fuel + 1, t =>
    (Thread.pollIteration w g t).1 ++ Thread.pollLoop w g fuel (Thread.pollIteration w g t).2

/-- Outcome of `Thread`: `ret = some v` when it has returned `v`, `none` while
it is still inside the loop; the globals and the steps taken so far. -/
structure ThreadResult where
  ret : Option Nat
  globals : Globals
  trace : List Action
  deriving DecidableEq, Repr

/-- Function `Thread`, its loop unrolled `fuel` iterations. -/
def Thread (w : World) (g : Globals) (fuel : Nat) : ThreadResult :=
  let r := GInput_Load w.env g.loader
  let g1 := { g with myInterfacePtr := r.written, loader := r.state }
  if r.ret then
    let g2 := Thread.switch w.gGameVersion g1
    { ret := none
      globals := g2
      trace := r.trace ++ [Action.ReadVersion gGameVersionAddr] ++ Thread.pollLoop w g2 fuel 0 }
  else
    { ret := some 0, globals := g1, trace := r.trace }

/-- Number of `SendEvent` calls in a trace. -/
def sendCount (tr : List Action) : Nat := tr.countP Action.isSendEvent

/-- Every `SendEvent` of the trace has `Sleep(70)` as the very next step. -/
def SendThenSleep70 : List Action → Prop
  | [] => True
  | a :: rest =>
    (a.isSendEvent = true → ∃ tl, rest = Action.Sleep 70 :: tl) ∧ SendThenSleep70 rest

/-! ## Concrete inputs -/

/-- Loader environment in which no library loads. -/
def noGInputEnv : Env :=
  { LoadLibraryA := fun _ => 0, GetProcAddress := fun _ _ => none }

/-- Loader environment in which the first library loads at handle 1 and its
export ordinal 1 returns the interface object 0. -/
def goodGInputEnv : Env :=
  { LoadLibraryA := fun _ => 1, GetProcAddress := fun _ _ => some (IGInputPadPtr.ext 0) }

/-- Memory of a GTA III 1.0 process in which the wheel is bound (code 4) and
every other byte, the state indicators included, holds 1. -/
def wheelDownMem : Nat → Nat → Fin 256 :=
  fun _ a => if a = 0x8F54BC then 4 else 1

/-- GInput present, GTA III 1.0, wheel bound and both state indicators asserted. -/
def triggerWorld : World :=
  { env := goodGInputEnv, gGameVersion := GTA_3_1_0, mem := wheelDownMem }

/-- GInput present, GTA III 1.0, all of memory zero. -/
def idleWorld : World :=
  { env := goodGInputEnv, gGameVersion := GTA_3_1_0, mem := fun _ _ => 0 }

/-- GInput present, but the version word holds `0x0`, the value of the
`GTA_SA_*` placeholders, which labels no `case`; all of memory zero. -/
def unknownVersionWorld : World :=
  { env := goodGInputEnv, gGameVersion := GTA_SA_1_0, mem := fun _ _ => 0 }

/-- GInput absent, GTA III 1.0, wheel bound and both state indicators asserted. -/
def loadFailureWorld : World :=
  { env := noGInputEnv, gGameVersion := GTA_3_1_0, mem := wheelDownMem }

/-- Globals once the switch has run for GTA III 1.0 with the interface object 0. -/
def gta3Globals : Globals :=
  Thread.switch GTA_3_1_0 { Globals.init with myInterfacePtr := IGInputPadPtr.ext 0 }

/-! ## The loader -/

theorem getInterface_none (e : Env) (h : Nat) (tr : List Action)
    (hp : e.GetProcAddress h 1 = none) :
    GInput_Load.getInterface e h tr =
      { ret := false
        written := IGInputPadPtr.dummy
        state := { hGInputHandle := h, pCopiedPtr := IGInputPadPtr.dummy,
                   bLoadingResult := false }
        trace := tr ++ [Action.GetProcAddress h 1] } := by
  simp [GInput_Load.getInterface, hp, _GInput_SafeMode]

theorem getInterface_null (e : Env) (h : Nat) (tr : List Action)
    (hp : e.GetProcAddress h 1 = some IGInputPadPtr.null) :
    GInput_Load.getInterface e h tr =
      { ret := false
        written := IGInputPadPtr.dummy
        state := { hGInputHandle := h, pCopiedPtr := IGInputPadPtr.dummy,
                   bLoadingResult := false }
        trace := tr ++ [Action.GetProcAddress h 1, Action.CallExport h] } := by
  simp [GInput_Load.getInterface, hp, _GInput_SafeMode]

theorem getInterface_some (e : Env) (h : Nat) (tr : List Action) (r : IGInputPadPtr)
    (hp : e.GetProcAddress h 1 = some r) (hr : r ≠ IGInputPadPtr.null) :
    GInput_Load.getInterface e h tr =
      { ret := true
        written := r
        state := { hGInputHandle := h, pCopiedPtr := r, bLoadingResult := true }
        trace := tr ++ [Action.GetProcAddress h 1, Action.CallExport h] } := by
  simp [GInput_Load.getInterface, hp, hr]

/-- The three ways `getInterface` can end. -/
theorem getInterface_cases (e : Env) (h : Nat) :
    (e.GetProcAddress h 1 = none ∨ e.GetProcAddress h 1 = some IGInputPadPtr.null) ∨
      ∃ r, e.GetProcAddress h 1 = some r ∧ r ≠ IGInputPadPtr.null := by
  cases hp : e.GetProcAddress h 1 with
  | none => exact Or.inl (Or.inl rfl)
  | some r =>
    by_cases hr : r = IGInputPadPtr.null
    · subst hr; exact Or.inl (Or.inr rfl)
    · exact Or.inr ⟨r, rfl, hr⟩

/-- A first call that finds no library ends in safe mode after four attempts. -/
theorem GInput_Load_of_firstLoaded_none (e : Env) (s : LoaderState)
    (hs : s.pCopiedPtr = IGInputPadPtr.null) (hf : firstLoaded e = none) :
    GInput_Load e s =
      { ret := false
        written := IGInputPadPtr.dummy
        state := { hGInputHandle := 0, pCopiedPtr := IGInputPadPtr.dummy,
                   bLoadingResult := false }
        trace := searchOrder.map Action.LoadLibraryA } := by
  simp only [firstLoaded, searchOrder, List.map, List.find?_eq_none, List.mem_cons,
    List.mem_singleton, decide_eq_true_eq, List.not_mem_nil, or_false] at hf
  have h1 := hf (e.LoadLibraryA "GInputIII.asi") (Or.inl rfl)
  have h2 := hf (e.LoadLibraryA "mss\\GInputIII.asi") (Or.inr (Or.inl rfl))
  have h3 := hf (e.LoadLibraryA "GInputVC.asi") (Or.inr (Or.inr (Or.inl rfl)))
  have h4 := hf (e.LoadLibraryA "mss\\GInputVC.asi") (Or.inr (Or.inr (Or.inr rfl)))
  simp only [ne_eq, not_not] at h1 h2 h3 h4
  simp [GInput_Load, hs, h1, h2, h3, h4, _GInput_SafeMode, searchOrder]

/-- A first call that finds a library continues with the export lookup on the
first handle of the search order that loaded, having made load attempts only. -/
theorem GInput_Load_of_firstLoaded_some (e : Env) (s : LoaderState) (h : Nat)
    (hs : s.pCopiedPtr = IGInputPadPtr.null) (hf : firstLoaded e = some h) :
    ∃ tr, (∀ a ∈ tr, a.isLoaderStep = true) ∧
      GInput_Load e s = GInput_Load.getInterface e h tr := by
  simp only [firstLoaded, searchOrder, List.map] at hf
  by_cases h1 : e.LoadLibraryA "GInputIII.asi" = 0
  · by_cases h2 : e.LoadLibraryA "mss\\GInputIII.asi" = 0
    · by_cases h3 : e.LoadLibraryA "GInputVC.asi" = 0
      · by_cases h4 : e.LoadLibraryA "mss\\GInputVC.asi" = 0
        · simp [List.find?, h1, h2, h3, h4] at hf
        · simp [List.find?, h1, h2, h3, h4] at hf
          subst hf
          refine ⟨[Action.LoadLibraryA "GInputIII.asi", Action.LoadLibraryA "mss\\GInputIII.asi",
            Action.LoadLibraryA "GInputVC.asi", Action.LoadLibraryA "mss\\GInputVC.asi"], ?_, ?_⟩
          · intro a ha
            simp only [List.mem_cons, List.mem_singleton, List.not_mem_nil, or_false] at ha
            rcases ha with rfl | rfl | rfl | rfl <;> rfl
          · simp [GInput_Load, hs, h1, h2, h3, h4]
      · simp [List.find?, h1, h2, h3] at hf
        subst hf
        refine ⟨[Action.LoadLibraryA "GInputIII.asi", Action.LoadLibraryA "mss\\GInputIII.asi",
          Action.LoadLibraryA "GInputVC.asi"], ?_, ?_⟩
        · intro a ha
          simp only [List.mem_cons, List.mem_singleton, List.not_mem_nil, or_false] at ha
          rcases ha with rfl | rfl | rfl <;> rfl
        · simp [GInput_Load, hs, h1, h2, h3]
    · simp [List.find?, h1, h2] at hf
      subst hf
      refine ⟨[Action.LoadLibraryA "GInputIII.asi", Action.LoadLibraryA "mss\\GInputIII.asi"],
        ?_, ?_⟩
      · intro a ha
        simp only [List.mem_cons, List.mem_singleton, List.not_mem_nil, or_false] at ha
        rcases ha with rfl | rfl <;> rfl
      · simp [GInput_Load, hs, h1, h2]
  · simp [List.find?, h1] at hf
    subst hf
    refine ⟨[Action.LoadLibraryA "GInputIII.asi"], ?_, ?_⟩
    · intro a ha
      simp only [List.mem_singleton] at ha
      subst ha; rfl
    · simp [GInput_Load, hs, h1]

/-- Shape of the outcome of `getInterface`: safe mode with `false`, or a
non-null interface with `true`; the statics cache what was returned. -/
theorem getInterface_shape (e : Env) (h : Nat) (tr : List Action) :
    ((GInput_Load.getInterface e h tr).ret = false ∧
        (GInput_Load.getInterface e h tr).written = IGInputPadPtr.dummy ∨
      (GInput_Load.getInterface e h tr).ret = true ∧
        (GInput_Load.getInterface e h tr).written ≠ IGInputPadPtr.null) ∧
    (GInput_Load.getInterface e h tr).state.pCopiedPtr =
      (GInput_Load.getInterface e h tr).written ∧
    (GInput_Load.getInterface e h tr).state.bLoadingResult =
      (GInput_Load.getInterface e h tr).ret := by
  rcases getInterface_cases e h with (hp | hp) | ⟨r, hp, hr⟩
  · rw [getInterface_none e h tr hp]; simp
  · rw [getInterface_null e h tr hp]; simp
  · rw [getInterface_some e h tr r hp hr]; simp [hr]

/-- Shape of the outcome of a call of `GInput_Load` that finds nothing cached. -/
theorem GInput_Load_shape (e : Env) (s : LoaderState)
    (hs : s.pCopiedPtr = IGInputPadPtr.null) :
    ((GInput_Load e s).ret = false ∧ (GInput_Load e s).written = IGInputPadPtr.dummy ∨
      (GInput_Load e s).ret = true ∧ (GInput_Load e s).written ≠ IGInputPadPtr.null) ∧
    (GInput_Load e s).state.pCopiedPtr = (GInput_Load e s).written ∧
    (GInput_Load e s).state.bLoadingResult = (GInput_Load e s).ret := by
  cases hf : firstLoaded e with
  | none => rw [GInput_Load_of_firstLoaded_none e s hs hf]; simp
  | some h =>
    obtain ⟨tr, _, htr⟩ := GInput_Load_of_firstLoaded_some e s h hs hf
    rw [htr]
    exact getInterface_shape e h tr

/-- A call of `GInput_Load` that finds a cached pointer returns the cache and
does nothing else. -/
theorem GInput_Load_cached (e : Env) (s : LoaderState)
    (hs : s.pCopiedPtr ≠ IGInputPadPtr.null) :
    GInput_Load e s =
      { ret := s.bLoadingResult, written := s.pCopiedPtr, state := s, trace := [] } := by
  simp [GInput_Load, hs]

theorem LoaderInv_init : LoaderInv LoaderState.init := by
  intro h; exact absurd rfl h

/-- After any call the cache is filled. -/
theorem GInput_Load_state_cached (e : Env) (s : LoaderState) :
    (GInput_Load e s).state.pCopiedPtr ≠ IGInputPadPtr.null := by
  by_cases hs : s.pCopiedPtr = IGInputPadPtr.null
  · obtain ⟨h1, h2, _⟩ := GInput_Load_shape e s hs
    rw [h2]
    rcases h1 with ⟨_, hw⟩ | ⟨_, hw⟩
    · rw [hw]; decide
    · exact hw
  · rw [GInput_Load_cached e s hs]; exact hs

/-- Under the invariant, a `false` result comes with the dummy, and the
invariant is kept. -/
theorem GInput_Load_inv (e : Env) (s : LoaderState) (hinv : LoaderInv s) :
    LoaderInv (GInput_Load e s).state ∧
      ((GInput_Load e s).ret = false → (GInput_Load e s).written = IGInputPadPtr.dummy) := by
  by_cases hs : s.pCopiedPtr = IGInputPadPtr.null
  · obtain ⟨h1, h2, h3⟩ := GInput_Load_shape e s hs
    refine ⟨?_, ?_⟩
    · intro _ hb
      rw [h2]; rw [h3] at hb
      rcases h1 with ⟨_, hw⟩ | ⟨ht, _⟩
      · exact hw
      · rw [ht] at hb; exact absurd hb (by decide)
    · intro hr
      rcases h1 with ⟨_, hw⟩ | ⟨ht, _⟩
      · exact hw
      · rw [ht] at hr; exact absurd hr (by decide)
  · rw [GInput_Load_cached e s hs]
    exact ⟨hinv, fun hr => hinv hs hr⟩

theorem loaderStateAfter_inv (envs : Nat → Env) (n : Nat) :
    LoaderInv (loaderStateAfter envs n) := by
  induction n with
  | zero => exact LoaderInv_init
  | succ k ih => exact (GInput_Load_inv (envs (k + 1)) (loaderStateAfter envs k) ih).1

/-- From the first call on, the statics no longer change. -/
theorem loaderStateAfter_stable (envs : Nat → Env) (n : Nat) :
    loaderStateAfter envs (n + 1) = loaderStateAfter envs 1 := by
  induction n with
  | zero => rfl
  | succ k ih =>
    have hc : (loaderStateAfter envs (k + 1)).pCopiedPtr ≠ IGInputPadPtr.null :=
      GInput_Load_state_cached (envs (k + 1)) (loaderStateAfter envs k)
    show (GInput_Load (envs (k + 1 + 1)) (loaderStateAfter envs (k + 1))).state = _
    rw [GInput_Load_cached _ _ hc]
    exact ih

/-! ### Claims about the loader -/

/-- C9. On its first call, `GInput_Load` returns `true` exactly when some path
of the search order loads, the loaded module has export ordinal 1 and that
export returns a non-null interface; the pointer written is then the export's
result; with no module, with no export, or with a null interface, the pointer
written is the safe-mode dummy; the pointer written is never null. -/
theorem GInput_Load_first_call (e : Env) :
    ((GInput_Load e LoaderState.init).ret = true ↔ ∃ r, LoadSucceedsWith e r) ∧
    (∀ r, LoadSucceedsWith e r → (GInput_Load e LoaderState.init).written = r) ∧
    (firstLoaded e = none →
      (GInput_Load e LoaderState.init).ret = false ∧
      (GInput_Load e LoaderState.init).written = _GInput_SafeMode) ∧
    (∀ h, firstLoaded e = some h → e.GetProcAddress h 1 = none →
      (GInput_Load e LoaderState.init).ret = false ∧
      (GInput_Load e LoaderState.init).written = _GInput_SafeMode) ∧
    (∀ h, firstLoaded e = some h → e.GetProcAddress h 1 = some IGInputPadPtr.null →
      (GInput_Load e LoaderState.init).ret = false ∧
      (GInput_Load e LoaderState.init).written = _GInput_SafeMode) ∧
    (GInput_Load e LoaderState.init).written ≠ IGInputPadPtr.null := by
  have hs : LoaderState.init.pCopiedPtr = IGInputPadPtr.null := rfl
  cases hf : firstLoaded e with
  | none =>
    rw [GInput_Load_of_firstLoaded_none e _ hs hf]
    simp [LoadSucceedsWith, hf, _GInput_SafeMode]
  | some h =>
    obtain ⟨tr, _, htr⟩ := GInput_Load_of_firstLoaded_some e _ h hs hf
    rw [htr]
    rcases getInterface_cases e h with (hp | hp) | ⟨r, hp, hr⟩
    · rw [getInterface_none e h tr hp]
      simp [LoadSucceedsWith, hf, hp, _GInput_SafeMode]
    · rw [getInterface_null e h tr hp]
      simp [LoadSucceedsWith, hf, hp, _GInput_SafeMode]
    · rw [getInterface_some e h tr r hp hr]
      simp [LoadSucceedsWith, hf, hp, hr]

/-- C7. Whenever a call of `GInput_Load` (the first or any later one, whatever
the environments) returns `false`, the pointer it writes is the safe-mode
dummy, and through that pointer `SendEvent` returns 0 for every event code and
parameter, `IsPadConnected` and `HasPadInHands` return `false`, and
`GetVersion` returns -1. -/
theorem GInput_Load_false_is_safe_mode (envs : Nat → Env) (n : Nat)
    (hret : (GInput_Load_nth envs n).ret = false) :
    (GInput_Load_nth envs n).written = _GInput_SafeMode ∧
    (∀ (x : ExternalPads) (eEvent : eGInputEvent) (dwParam : Nat),
      IGInputPad.SendEvent x (GInput_Load_nth envs n).written eEvent dwParam = some 0) ∧
    (∀ x : ExternalPads,
      IGInputPad.IsPadConnected x (GInput_Load_nth envs n).written = some false ∧
      IGInputPad.HasPadInHands x (GInput_Load_nth envs n).written = some false ∧
      IGInputPad.GetVersion x (GInput_Load_nth envs n).written = some (-1)) := by
  have hw : (GInput_Load_nth envs n).written = IGInputPadPtr.dummy :=
    (GInput_Load_inv (envs n) _ (loaderStateAfter_inv envs (n - 1))).2 hret
  rw [hw]
  refine ⟨rfl, fun _ _ _ => rfl, fun _ => ⟨rfl, rfl, rfl⟩⟩

/-- C10. For every sequence of environments and every `n ≥ 2`, the `n`-th call
of `GInput_Load` returns the same boolean and writes the same pointer as the
first call, takes no step at all (no library load, no export lookup), and
leaves the statics as the first call left them. -/
theorem GInput_Load_idempotent (envs : Nat → Env) (n : Nat) (hn : 2 ≤ n) :
    (GInput_Load_nth envs n).ret = (GInput_Load_nth envs 1).ret ∧
    (GInput_Load_nth envs n).written = (GInput_Load_nth envs 1).written ∧
    (GInput_Load_nth envs n).trace = [] ∧
    (GInput_Load_nth envs n).state = (GInput_Load_nth envs 1).state := by
  obtain ⟨k, rfl⟩ : ∃ k, n = k + 2 := ⟨n - 2, by omega⟩
  have hst : loaderStateAfter envs (k + 1) = loaderStateAfter envs 1 :=
    loaderStateAfter_stable envs k
  have hc : (loaderStateAfter envs 1).pCopiedPtr ≠ IGInputPadPtr.null :=
    GInput_Load_state_cached (envs 1) LoaderState.init
  have h1 : GInput_Load_nth envs 1 = GInput_Load (envs 1) LoaderState.init := rfl
  have hn : GInput_Load_nth envs (k + 2)
      = GInput_Load (envs (k + 2)) (loaderStateAfter envs 1) := by
    show GInput_Load (envs (k + 2)) (loaderStateAfter envs (k + 2 - 1)) = _
    rw [show k + 2 - 1 = k + 1 by omega, hst]
  rw [hn, GInput_Load_cached _ _ hc, h1]
  have hsh := GInput_Load_shape (envs 1) LoaderState.init rfl
  refine ⟨?_, ?_, rfl, rfl⟩
  · exact hsh.2.2
  · exact hsh.2.1

/-! ## The version switch and the poll loop -/

theorem charValue_eq_four (b : Fin 256) : charValue b = 4 ↔ b = 4 := by
  unfold charValue
  rw [Fin.ext_iff]
  have hb := b.isLt
  have hv : ((4 : Fin 256) : Nat) = 4 := rfl
  rw [hv]
  split <;> omega

theorem charValue_eq_five (b : Fin 256) : charValue b = 5 ↔ b = 5 := by
  unfold charValue
  rw [Fin.ext_iff]
  have hb := b.isLt
  have hv : ((5 : Fin 256) : Nat) = 5 := rfl
  rw [hv]
  split <;> omega

theorem charValue_eq_zero (b : Fin 256) : charValue b = 0 ↔ b = 0 := by
  unfold charValue
  rw [Fin.ext_iff]
  have hb := b.isLt
  have hv : ((0 : Fin 256) : Nat) = 0 := rfl
  rw [hv]
  split <;> omega

/-- C1. With the binding indicator holding 4 or 5 and the three indicator
bytes stable during the iteration, one iteration of the poll loop calls
`SendEvent` exactly once when the matching state indicator is asserted
(binding 4 and down-state non-zero, or binding 5 and up-state non-zero) and
not at all otherwise. -/
theorem pollIteration_sendCount (w : World) (g : Globals) (t : Nat) (b d u : Fin 256)
    (hb : ∀ k, w.mem k g.gMouseWheelBinding = b)
    (hd : ∀ k, w.mem k g.gMouseWheelDownState = d)
    (hu : ∀ k, w.mem k g.gMouseWheelUpState = u)
    (h45 : b = 4 ∨ b = 5) :
    sendCount (Thread.pollIteration w g t).1 =
      if (b = 4 ∧ d ≠ 0) ∨ (b = 5 ∧ u ≠ 0) then 1 else 0 := by
  rcases h45 with rfl | rfl
  · by_cases hd0 : d = 0
    · simp [Thread.pollIteration, hb, hd, charValue_eq_four, charValue_eq_zero, hd0,
        sendCount, Action.isSendEvent]
    · simp [Thread.pollIteration, hb, hd, charValue_eq_four, charValue_eq_zero, hd0,
        sendCount, Action.isSendEvent]
  · have h54 : ¬ ((5 : Fin 256) = 4) := by decide
    by_cases hu0 : u = 0
    · simp [Thread.pollIteration, hb, hu, charValue_eq_four, charValue_eq_five,
        charValue_eq_zero, hu0, h54, sendCount, Action.isSendEvent]
    · simp [Thread.pollIteration, hb, hu, charValue_eq_four, charValue_eq_five,
        charValue_eq_zero, hu0, h54, sendCount, Action.isSendEvent]

/-- C2. With the binding indicator holding a value other than 4 and 5, one
iteration of the poll loop makes no `SendEvent` call, whatever the state
indicators hold: it yields with `Sleep(0)`, reads the binding indicator for
its two comparisons, and does nothing else. -/
theorem pollIteration_other_binding (w : World) (g : Globals) (t : Nat) (b : Fin 256)
    (hb : ∀ k, w.mem k g.gMouseWheelBinding = b) (h4 : b ≠ 4) (h5 : b ≠ 5) :
    sendCount (Thread.pollIteration w g t).1 = 0 ∧
    (Thread.pollIteration w g t).1 =
      [Action.Sleep 0, Action.ReadChar g.gMouseWheelBinding,
       Action.ReadChar g.gMouseWheelBinding] := by
  simp [Thread.pollIteration, hb, charValue_eq_four, charValue_eq_five, h4, h5,
    sendCount, Action.isSendEvent]

/-- The switch reads none of the globals: its three results depend on the key
and on the three pointers it may leave unassigned. -/
theorem Thread_switch_addressSet (v : Nat) (g g1 : Globals)
    (h : g1.addressSet = g.addressSet) :
    (Thread.switch v g1).addressSet = (Thread.switch v g).addressSet := by
  unfold Thread.switch
  split_ifs <;> first | rfl | exact h

/-- C4. For each of the six known version keys the switch sets binding,
down-state and up-state to the table entry; the six keys are pairwise distinct
and so are the six resulting address sets. In `Thread`, once the loader has
succeeded, the switch is applied to the version word read from the process:
the three globals hold the table entry of that key, and the poll loop runs
with these globals. -/
theorem Thread_switch_table (w : World) (g : Globals) (fuel : Nat) :
    (Thread.switch 0x3A83126F g).addressSet = (0x8F54BC, 0x6F1E64, 0x6F1E63) ∧
    (Thread.switch 0x3F8CCCCD g).addressSet = (0x8F5570, 0x6F1E64, 0x6F1E63) ∧
    (Thread.switch 0x47BDA5 g).addressSet = (0x9056B0, 0x701FA4, 0x701FA3) ∧
    (Thread.switch 0x53FF1B8B g).addressSet = (0x9B5B64, 0x7DD864, 0x7DD863) ∧
    (Thread.switch 0x783EE8 g).addressSet = (0x9B5B6C, 0x7DD86C, 0x7DD86B) ∧
    (Thread.switch 0xF04F883 g).addressSet = (0x9B4B6C, 0x7DC86C, 0x7DC86B) ∧
    knownVersions = [0x3A83126F, 0x3F8CCCCD, 0x47BDA5, 0x53FF1B8B, 0x783EE8, 0xF04F883] ∧
    knownVersions.Nodup ∧
    (knownVersions.map (fun v => (Thread.switch v g).addressSet)).Nodup ∧
    ((GInput_Load w.env g.loader).ret = true →
      (Thread w g fuel).globals.addressSet = (Thread.switch w.gGameVersion g).addressSet ∧
      (Thread w g fuel).trace =
        (GInput_Load w.env g.loader).trace ++ [Action.ReadVersion gGameVersionAddr] ++
          Thread.pollLoop w (Thread w g fuel).globals fuel 0 ∧
      (w.gGameVersion = 0x3A83126F →
        (Thread w g fuel).globals.addressSet = (0x8F54BC, 0x6F1E64, 0x6F1E63)) ∧
      (w.gGameVersion = 0x3F8CCCCD →
        (Thread w g fuel).globals.addressSet = (0x8F5570, 0x6F1E64, 0x6F1E63)) ∧
      (w.gGameVersion = 0x47BDA5 →
        (Thread w g fuel).globals.addressSet = (0x9056B0, 0x701FA4, 0x701FA3)) ∧
      (w.gGameVersion = 0x53FF1B8B →
        (Thread w g fuel).globals.addressSet = (0x9B5B64, 0x7DD864, 0x7DD863)) ∧
      (w.gGameVersion = 0x783EE8 →
        (Thread w g fuel).globals.addressSet = (0x9B5B6C, 0x7DD86C, 0x7DD86B)) ∧
      (w.gGameVersion = 0xF04F883 →
        (Thread w g fuel).globals.addressSet = (0x9B4B6C, 0x7DC86C, 0x7DC86B))) := by
  refine ⟨rfl, rfl, rfl, rfl, rfl, rfl, rfl, by decide, ?_, ?_⟩
  · simp [knownVersions, Thread.switch, Globals.addressSet, GTA_3_1_0, GTA_3_1_1,
      GTA_3_STEAM, GTA_VC_1_0, GTA_VC_1_1, GTA_VC_STEAM]
  · intro hret
    have ht : Thread w g fuel =
        { ret := none
          globals := Thread.switch w.gGameVersion
            { g with myInterfacePtr := (GInput_Load w.env g.loader).written,
                     loader := (GInput_Load w.env g.loader).state }
          trace := (GInput_Load w.env g.loader).trace ++
            [Action.ReadVersion gGameVersionAddr] ++
            Thread.pollLoop w (Thread.switch w.gGameVersion
              { g with myInterfacePtr := (GInput_Load w.env g.loader).written,
                       loader := (GInput_Load w.env g.loader).state }) fuel 0 } := by
      simp [Thread, hret]
    have hset : (Thread w g fuel).globals.addressSet =
        (Thread.switch w.gGameVersion g).addressSet := by
      rw [ht]
      exact Thread_switch_addressSet _ _ _ rfl
    refine ⟨hset, ?_, ?_, ?_, ?_, ?_, ?_, ?_⟩
    · rw [ht]
    all_goals
      intro hv
      rw [hset, hv]
      rfl

/-! ### Traces -/

theorem getInterface_trace (e : Env) (h : Nat) (tr : List Action)
    (htr : ∀ a ∈ tr, a.isLoaderStep = true) :
    ∀ a ∈ (GInput_Load.getInterface e h tr).trace, a.isLoaderStep = true := by
  rcases getInterface_cases e h with (hp | hp) | ⟨r, hp, hr⟩
  · rw [getInterface_none e h tr hp]
    intro a ha
    simp only [List.mem_append, List.mem_singleton] at ha
    rcases ha with ha | rfl
    · exact htr a ha
    · rfl
  · rw [getInterface_null e h tr hp]
    intro a ha
    simp only [List.mem_append, List.mem_cons, List.mem_singleton, List.not_mem_nil,
      or_false] at ha
    rcases ha with ha | rfl | rfl
    · exact htr a ha
    · rfl
    · rfl
  · rw [getInterface_some e h tr r hp hr]
    intro a ha
    simp only [List.mem_append, List.mem_cons, List.mem_singleton, List.not_mem_nil,
      or_false] at ha
    rcases ha with ha | rfl | rfl
    · exact htr a ha
    · rfl
    · rfl

/-- The loader only loads libraries, looks up the export and calls it. -/
theorem GInput_Load_trace (e : Env) (s : LoaderState) :
    ∀ a ∈ (GInput_Load e s).trace, a.isLoaderStep = true := by
  by_cases hs : s.pCopiedPtr = IGInputPadPtr.null
  · cases hf : firstLoaded e with
    | none =>
      rw [GInput_Load_of_firstLoaded_none e s hs hf]
      intro a ha
      simp only [searchOrder, List.map, List.mem_cons, List.mem_singleton, List.not_mem_nil,
        or_false] at ha
      rcases ha with rfl | rfl | rfl | rfl <;> rfl
    | some h =>
      obtain ⟨tr, htr, heq⟩ := GInput_Load_of_firstLoaded_some e s h hs hf
      rw [heq]
      exact getInterface_trace e h tr htr
  · rw [GInput_Load_cached e s hs]
    intro a ha
    simp at ha

theorem isSendEvent_of_isLoaderStep (a : Action) (h : a.isLoaderStep = true) :
    a.isSendEvent = false := by
  cases a <;> simp_all [Action.isLoaderStep, Action.isSendEvent]

/-- A trace without `SendEvent` satisfies `SendThenSleep70`. -/
theorem SendThenSleep70_of_no_send (l : List Action)
    (h : ∀ a ∈ l, a.isSendEvent = false) : SendThenSleep70 l := by
  induction l with
  | nil => trivial
  | cons a rest ih =>
    refine ⟨fun ha => ?_, ih (fun x hx => h x (List.mem_cons_of_mem a hx))⟩
    rw [h a (List.mem_cons_self a rest)] at ha
    exact absurd ha (by decide)

/-- Two traces satisfying `SendThenSleep70` can be joined when the first does
not end in a `SendEvent`. -/
theorem SendThenSleep70_append (l1 l2 : List Action) (h1 : SendThenSleep70 l1)
    (hl : ∀ a, l1.getLast? = some a → a.isSendEvent = false)
    (h2 : SendThenSleep70 l2) : SendThenSleep70 (l1 ++ l2) := by
  induction l1 with
  | nil => exact h2
  | cons a rest ih =>
    obtain ⟨ha, hrest⟩ := h1
    refine ⟨fun hs => ?_, ?_⟩
    · obtain ⟨tl, htl⟩ := ha hs
      exact ⟨tl ++ l2, by rw [htl]; rfl⟩
    · apply ih hrest
      intro x hx
      cases rest with
      | nil => simp at hx
      | cons y ys =>
        apply hl x
        rw [List.getLast?_cons_cons]
        exact hx

/-- In a trace satisfying `SendThenSleep70`, the step after a `SendEvent` at
position `i` exists and is `Sleep(70)`. -/
theorem SendThenSleep70_next (l : List Action) (h : SendThenSleep70 l) (i : Nat)
    (a : Action) (hi : l[i]? = some a) (ha : a.isSendEvent = true) :
    l[i + 1]? = some (Action.Sleep 70) := by
  induction l generalizing i with
  | nil => simp at hi
  | cons x rest ih =>
    obtain ⟨hx, hrest⟩ := h
    cases i with
    | zero =>
      simp at hi
      subst hi
      obtain ⟨tl, htl⟩ := hx ha
      simp [htl]
    | succ j =>
      simp at hi
      simpa using ih hrest j hi

/-- Each iteration satisfies `SendThenSleep70`, does not end in a `SendEvent`
and sends at most once. -/
theorem pollIteration_trace (w : World) (g : Globals) (t : Nat) :
    SendThenSleep70 (Thread.pollIteration w g t).1 ∧
    (∀ a, (Thread.pollIteration w g t).1.getLast? = some a → a.isSendEvent = false) ∧
    sendCount (Thread.pollIteration w g t).1 ≤ 1 ∧
    (∀ p ev prm, Action.SendEvent p ev prm ∈ (Thread.pollIteration w g t).1 →
      p = g.myInterfacePtr ∧ ev = GINPUT_EVENT_CHANGE_RADIO_STATION ∧ prm = 1) := by
  unfold Thread.pollIteration
  split_ifs <;>
    simp [SendThenSleep70, Action.isSendEvent, sendCount, List.getLast?]

theorem pollLoop_trace (w : World) (g : Globals) (fuel t : Nat) :
    SendThenSleep70 (Thread.pollLoop w g fuel t) ∧
    (∀ a, (Thread.pollLoop w g fuel t).getLast? = some a → a.isSendEvent = false) ∧
    (∀ p ev prm, Action.SendEvent p ev prm ∈ Thread.pollLoop w g fuel t →
      p = g.myInterfacePtr ∧ ev = GINPUT_EVENT_CHANGE_RADIO_STATION ∧ prm = 1) := by
  induction fuel generalizing t with
  | zero =>
    refine ⟨trivial, ?_, ?_⟩
    · intro a ha; simp [Thread.pollLoop] at ha
    · intro p ev prm hm; simp [Thread.pollLoop] at hm
  | succ n ih =>
    obtain ⟨i1, i2, _, i4⟩ := pollIteration_trace w g t
    obtain ⟨l1, l2, l3⟩ := ih (Thread.pollIteration w g t).2
    simp only [Thread.pollLoop]
    refine ⟨SendThenSleep70_append _ _ i1 i2 l1, ?_, ?_⟩
    · intro a ha
      rw [List.getLast?_append] at ha
      cases hl : (Thread.pollLoop w g n (Thread.pollIteration w g t).2).getLast? with
      | none => rw [hl] at ha; exact i2 a (by simpa using ha)
      | some y => rw [hl] at ha; simp at ha; subst ha; exact l2 y hl
    · intro p ev prm hm
      rcases List.mem_append.mp hm with hm | hm
      · exact i4 p ev prm hm
      · exact l3 p ev prm hm

/-- Steps of `Thread`: those of the loader, then, if it succeeded, the read of
the version word and the poll loop. -/
theorem Thread_trace_eq (w : World) (g : Globals) (fuel : Nat) :
    (Thread w g fuel).trace = (GInput_Load w.env g.loader).trace ∨
    (Thread w g fuel).trace =
      (GInput_Load w.env g.loader).trace ++
        ([Action.ReadVersion gGameVersionAddr] ++
          Thread.pollLoop w (Thread w g fuel).globals fuel 0) := by
  unfold Thread
  cases hr : (GInput_Load w.env g.loader).ret with
  | false => left; simp [hr]
  | true => right; simp [hr]

theorem Thread_trace_SendThenSleep70 (w : World) (g : Globals) (fuel : Nat) :
    SendThenSleep70 (Thread w g fuel).trace := by
  have hload : ∀ a ∈ (GInput_Load w.env g.loader).trace, a.isSendEvent = false :=
    fun a ha => isSendEvent_of_isLoaderStep a (GInput_Load_trace w.env g.loader a ha)
  rcases Thread_trace_eq w g fuel with h | h
  · rw [h]; exact SendThenSleep70_of_no_send _ hload
  · rw [h]
    apply SendThenSleep70_append _ _ (SendThenSleep70_of_no_send _ hload)
    · intro a ha
      exact hload a (List.mem_of_getLast?_eq_some ha)
    · exact ⟨fun hs => absurd hs (by decide), (pollLoop_trace w _ fuel 0).1⟩

/-- While the trigger condition holds on every reading, every iteration sends. -/
theorem pollLoop_sustained_trigger (w : World) (g : Globals)
    (hb : ∀ k, charValue (w.mem k g.gMouseWheelBinding) = 4)
    (hd : ∀ k, charValue (w.mem k g.gMouseWheelDownState) ≠ 0) (fuel t : Nat) :
    sendCount (Thread.pollLoop w g fuel t) = fuel := by
  induction fuel generalizing t with
  | zero => rfl
  | succ n ih =>
    have hi : sendCount (Thread.pollIteration w g t).1 = 1 := by
      simp [Thread.pollIteration, hb, hd, sendCount, Action.isSendEvent]
    simp only [Thread.pollLoop, sendCount, List.countP_append] at *
    rw [hi, ih]
    omega

/-! ### Claims about `Thread` -/

/-- C3. In the trace of any run of `Thread`, over any memory readings, every
`SendEvent` call has `Sleep(70)` as its very next step, hence before any
further memory read; an iteration sends at most one event; and between any
two `SendEvent` calls of the trace lies a `Sleep(70)`. -/
theorem Thread_send_then_sleep (w : World) (g : Globals) (fuel : Nat) :
    (∀ (i : Nat) (a : Action), (Thread w g fuel).trace[i]? = some a → a.isSendEvent = true →
      (Thread w g fuel).trace[i + 1]? = some (Action.Sleep 70)) ∧
    (∀ t, sendCount (Thread.pollIteration w (Thread w g fuel).globals t).1 ≤ 1) ∧
    (∀ (i j : Nat) (a b : Action), i < j →
      (Thread w g fuel).trace[i]? = some a → a.isSendEvent = true →
      (Thread w g fuel).trace[j]? = some b → b.isSendEvent = true →
      ∃ k, i < k ∧ k < j ∧ (Thread w g fuel).trace[k]? = some (Action.Sleep 70)) := by
  have hsts := Thread_trace_SendThenSleep70 w g fuel
  refine ⟨fun i a hi ha => SendThenSleep70_next _ hsts i a hi ha,
    fun t => (pollIteration_trace w _ t).2.2.1, ?_⟩
  intro i j a b hij hi ha hj hb
  have hnext := SendThenSleep70_next _ hsts i a hi ha
  refine ⟨i + 1, Nat.lt_succ_self i, ?_, hnext⟩
  rcases Nat.lt_or_ge (i + 1) j with h | h
  · exact h
  · have hje : j = i + 1 := by omega
    rw [hje, hnext] at hj
    cases hj
    exact absurd hb (by decide)

/-- C8. Every `SendEvent` call in the trace of any run of `Thread` has event
code `GINPUT_EVENT_CHANGE_RADIO_STATION`, whose numeric value is 0, and
parameter 1; the iteration that triggers on binding 4 with down-state asserted
and the one that triggers on binding 5 with up-state asserted both make
exactly this call. -/
theorem Thread_SendEvent_arguments (w : World) (g : Globals) (fuel : Nat) :
    (∀ p ev prm, Action.SendEvent p ev prm ∈ (Thread w g fuel).trace →
      ev = GINPUT_EVENT_CHANGE_RADIO_STATION ∧ ev = 0 ∧ prm = 1) ∧
    (∀ t, charValue (w.mem t g.gMouseWheelBinding) = 4 →
      charValue (w.mem (t + 1) g.gMouseWheelDownState) ≠ 0 →
      (Thread.pollIteration w g t).1.filter Action.isSendEvent =
        [Action.SendEvent g.myInterfacePtr 0 1]) ∧
    (∀ t, charValue (w.mem t g.gMouseWheelBinding) ≠ 4 →
      charValue (w.mem (t + 1) g.gMouseWheelBinding) = 5 →
      charValue (w.mem (t + 2) g.gMouseWheelUpState) ≠ 0 →
      (Thread.pollIteration w g t).1.filter Action.isSendEvent =
        [Action.SendEvent g.myInterfacePtr 0 1]) := by
  refine ⟨?_, ?_, ?_⟩
  · intro p ev prm hm
    have hargs : ev = GINPUT_EVENT_CHANGE_RADIO_STATION ∧ prm = 1 := by
      rcases Thread_trace_eq w g fuel with h | h
      · rw [h] at hm
        exact absurd (GInput_Load_trace w.env g.loader _ hm) (by simp [Action.isLoaderStep])
      · rw [h] at hm
        rcases List.mem_append.mp hm with hm | hm
        · exact absurd (GInput_Load_trace w.env g.loader _ hm) (by simp [Action.isLoaderStep])
        · rcases List.mem_append.mp hm with hm | hm
          · simp at hm
          · exact ((pollLoop_trace w _ fuel 0).2.2 p ev prm hm).2
    exact ⟨hargs.1, by rw [hargs.1]; rfl, hargs.2⟩
  · intro t h4 hd
    simp [Thread.pollIteration, h4, hd, Action.isSendEvent, GINPUT_EVENT_CHANGE_RADIO_STATION,
      GINPUT_NO_EVENT]
  · intro t h4 h5 hu
    simp [Thread.pollIteration, h4, h5, hu, Action.isSendEvent,
      GINPUT_EVENT_CHANGE_RADIO_STATION, GINPUT_NO_EVENT]

/-- The switch leaves the globals alone for a key that labels no `case`. -/
theorem Thread_switch_unknown (v : Nat) (g : Globals) (hv : v ∉ knownVersions) :
    Thread.switch v g = g := by
  simp only [knownVersions, List.mem_cons, List.mem_singleton, List.not_mem_nil, or_false,
    not_or] at hv
  obtain ⟨h1, h2, h3, h4, h5, h6⟩ := hv
  simp [Thread.switch, h1, h2, h3, h4, h5, h6]

/-- With a loaded GInput, `Thread` enters the poll loop whatever the version
word holds, and its first iteration reads through `gMouseWheelBinding`. -/
theorem Thread_polls_after_load (w : World) (g : Globals) (fuel : Nat)
    (hret : (GInput_Load w.env g.loader).ret = true) :
    (Thread w g (fuel + 1)).ret = none ∧
    Action.ReadChar (Thread w g (fuel + 1)).globals.gMouseWheelBinding ∈
      (Thread w g (fuel + 1)).trace := by
  have hmem : ∀ (g2 : Globals) (t : Nat),
      Action.ReadChar g2.gMouseWheelBinding ∈ (Thread.pollIteration w g2 t).1 := by
    intro g2 t
    unfold Thread.pollIteration
    split_ifs <;> simp
  have ht : Thread w g (fuel + 1) =
      { ret := none
        globals := Thread.switch w.gGameVersion
          { g with myInterfacePtr := (GInput_Load w.env g.loader).written,
                   loader := (GInput_Load w.env g.loader).state }
        trace := (GInput_Load w.env g.loader).trace ++ [Action.ReadVersion gGameVersionAddr] ++
          Thread.pollLoop w (Thread.switch w.gGameVersion
            { g with myInterfacePtr := (GInput_Load w.env g.loader).written,
                     loader := (GInput_Load w.env g.loader).state }) (fuel + 1) 0 } := by
    simp [Thread, hret]
  rw [ht]
  refine ⟨rfl, ?_⟩
  apply List.mem_append_right
  simp only [Thread.pollLoop]
  apply List.mem_append_left
  exact hmem _ 0

/-- C5, the code at the failing input. With GInput loaded and the version
word holding `0x0` (no known key), the switch assigns nothing, the three
pointers keep their initial null value, `Thread` enters the poll loop all the
same, and its first iteration reads through the null binding pointer. -/
theorem Thread_unknown_version_reads_null :
    unknownVersionWorld.gGameVersion ∉ knownVersions ∧
    (Thread unknownVersionWorld Globals.init 1).ret = none ∧
    (Thread unknownVersionWorld Globals.init 1).globals.addressSet = (0, 0, 0) ∧
    (Thread unknownVersionWorld Globals.init 1).trace =
      [Action.LoadLibraryA "GInputIII.asi", Action.GetProcAddress 1 1, Action.CallExport 1,
       Action.ReadVersion 0x601048, Action.Sleep 0, Action.ReadChar 0, Action.ReadChar 0] := by
  refine ⟨by decide, rfl, rfl, ?_⟩
  rfl

/-- C6, the claim fails. With no GInput library present in a GTA III 1.0
process whose wheel indicators are asserted, `GInput_Load` reports failure and
`Thread` has returned 0: the three pointers are still null instead of the
table entry of the version, and the trace holds the four load attempts only,
no `Sleep`, no memory read and no `SendEvent`. -/
theorem Thread_load_failure_stops :
    (GInput_Load loadFailureWorld.env Globals.init.loader).ret = false ∧
    (Thread loadFailureWorld Globals.init 3).ret = some 0 ∧
    (Thread loadFailureWorld Globals.init 3).globals.addressSet = (0, 0, 0) ∧
    (Thread.switch loadFailureWorld.gGameVersion Globals.init).addressSet =
      (0x8F54BC, 0x6F1E64, 0x6F1E63) ∧
    (Thread loadFailureWorld Globals.init 3).trace = searchOrder.map Action.LoadLibraryA := by
  refine ⟨rfl, rfl, rfl, rfl, rfl⟩

/-- C6, amended. When `GInput_Load` reports failure, `Thread` returns 0 at
once: it leaves the three pointers as they were, takes no step beyond those of
the loader (no `Sleep`, no memory read, no `SendEvent`, for any amount of
fuel), and leaves `myInterfacePtr` at the safe-mode dummy, through which
`SendEvent` returns zero. -/
theorem Thread_load_failure (w : World) (g : Globals) (fuel : Nat)
    (hinv : LoaderInv g.loader)
    (hret : (GInput_Load w.env g.loader).ret = false) :
    (Thread w g fuel).ret = some 0 ∧
    (Thread w g fuel).globals.addressSet = g.addressSet ∧
    (Thread w g fuel).trace = (GInput_Load w.env g.loader).trace ∧
    (∀ a ∈ (Thread w g fuel).trace,
      a.isSleep = false ∧ a.isReadChar = false ∧ a.isSendEvent = false) ∧
    (Thread w g fuel).globals.myInterfacePtr = _GInput_SafeMode ∧
    (∀ (x : ExternalPads) (eEvent : eGInputEvent) (dwParam : Nat),
      IGInputPad.SendEvent x (Thread w g fuel).globals.myInterfacePtr eEvent dwParam =
        some 0) := by
  have hw := (GInput_Load_inv w.env g.loader hinv).2 hret
  have ht : Thread w g fuel =
      { ret := some 0
        globals := { g with myInterfacePtr := (GInput_Load w.env g.loader).written,
                            loader := (GInput_Load w.env g.loader).state }
        trace := (GInput_Load w.env g.loader).trace } := by
    simp [Thread, hret]
  rw [ht]
  refine ⟨rfl, rfl, rfl, ?_, hw, ?_⟩
  · intro a ha
    have hl := GInput_Load_trace w.env g.loader a ha
    cases a <;> simp_all [Action.isLoaderStep, Action.isSleep, Action.isReadChar,
      Action.isSendEvent]
  · intro x ev prm
    show IGInputPad.SendEvent x (GInput_Load w.env g.loader).written ev prm = some 0
    rw [hw]; rfl

/-! ### Witnesses -/

/-- Instance of C1: binding 4 with both state indicators holding 1. -/
theorem pollIteration_sendCount_witness :
    (∀ k, triggerWorld.mem k gta3Globals.gMouseWheelBinding = 4) ∧
    (∀ k, triggerWorld.mem k gta3Globals.gMouseWheelDownState = 1) ∧
    (∀ k, triggerWorld.mem k gta3Globals.gMouseWheelUpState = 1) ∧
    sendCount (Thread.pollIteration triggerWorld gta3Globals 0).1 =
      if ((4 : Fin 256) = 4 ∧ (1 : Fin 256) ≠ 0) ∨ ((4 : Fin 256) = 5 ∧ (1 : Fin 256) ≠ 0)
      then 1 else 0 :=
  ⟨fun _ => rfl, fun _ => rfl, fun _ => rfl,
    pollIteration_sendCount triggerWorld gta3Globals 0 4 1 1
      (fun _ => rfl) (fun _ => rfl) (fun _ => rfl) (Or.inl rfl)⟩

/-- Instance of C2: binding 0 in an all-zero memory. -/
theorem pollIteration_other_binding_witness :
    (∀ k, idleWorld.mem k gta3Globals.gMouseWheelBinding = 0) ∧
    sendCount (Thread.pollIteration idleWorld gta3Globals 0).1 = 0 ∧
    (Thread.pollIteration idleWorld gta3Globals 0).1 =
      [Action.Sleep 0, Action.ReadChar gta3Globals.gMouseWheelBinding,
       Action.ReadChar gta3Globals.gMouseWheelBinding] :=
  ⟨fun _ => rfl,
    pollIteration_other_binding idleWorld gta3Globals 0 0 (fun _ => rfl)
      (by decide) (by decide)⟩

/-- Instance of C4: GInput present in a GTA III 1.0 process. -/
theorem Thread_switch_table_witness :
    (GInput_Load triggerWorld.env Globals.init.loader).ret = true ∧
    triggerWorld.gGameVersion = 0x3A83126F ∧
    (Thread triggerWorld Globals.init 2).globals.addressSet =
      (0x8F54BC, 0x6F1E64, 0x6F1E63) ∧
    Action.ReadChar 0x8F54BC ∈ (Thread triggerWorld Globals.init 2).trace :=
  have h := (Thread_switch_table triggerWorld Globals.init 2).2.2.2.2.2.2.2.2.2 rfl
  ⟨rfl, rfl, h.2.2.1 rfl, by rw [h.2.1]; decide⟩

/-- Instance of the amended C6: no GInput library present. -/
theorem Thread_load_failure_witness :
    (GInput_Load loadFailureWorld.env Globals.init.loader).ret = false ∧
    (Thread loadFailureWorld Globals.init 3).ret = some 0 ∧
    (Thread loadFailureWorld Globals.init 3).globals.myInterfacePtr = _GInput_SafeMode :=
  have h := Thread_load_failure loadFailureWorld Globals.init 3 LoaderInv_init rfl
  ⟨rfl, h.1, h.2.2.2.2.1⟩

/-- Instance of C7: the second call when no GInput library is present. -/
theorem GInput_Load_false_is_safe_mode_witness :
    (GInput_Load_nth (fun _ => noGInputEnv) 2).ret = false ∧
    (GInput_Load_nth (fun _ => noGInputEnv) 2).written = _GInput_SafeMode :=
  ⟨rfl, (GInput_Load_false_is_safe_mode (fun _ => noGInputEnv) 2 rfl).1⟩

/-- Instance of C10: the third call, GInput absent at the first call and
present afterwards. -/
theorem GInput_Load_idempotent_witness :
    2 ≤ 3 ∧
    (GInput_Load_nth (fun n => if n = 1 then noGInputEnv else goodGInputEnv) 3).ret =
      (GInput_Load_nth (fun n => if n = 1 then noGInputEnv else goodGInputEnv) 1).ret ∧
    (GInput_Load_nth (fun n => if n = 1 then noGInputEnv else goodGInputEnv) 3).trace = [] :=
  have h := GInput_Load_idempotent (fun n => if n = 1 then noGInputEnv else goodGInputEnv) 3
    (by decide)
  ⟨by decide, h.1, h.2.2.1⟩

end MouseWheelRadioChanger
